import Mathlib

/-!
Verification development for `src/sunpy/map/mapcubed.py` (class `MapCubed`).

Shallow embedding conventions:
* A 2-D numpy array is `Arr2`: explicit dimensions plus a total valuation
  function; numeric entries are modelled exactly by `ℚ` (the claims under
  study are algebraic identities about elementwise arithmetic, and numpy's
  float arithmetic is idealized to exact rationals).
* A sunpy map ("Frame") is `Frame`: its `data` array plus its `meta` header.
  As in sunpy, the map's `date` and `scale` are derived from the header.
* Python `raise ValueError(msg)` is modelled by `Except.error (Err.valueError msg)`.
* Python's `list.sort(key=...)` is a stable sort: `List.mergeSort`.
* The dynamic `isinstance(m, GenericMap)` check of `__init__` is modelled by
  feeding `MapCubed.construct` a list of dynamic values (`PyObj`), each either
  a genuine `Frame` or something else.
* `meta(key)` returns a Python object that is either a scalar or a list
  depending on the branch taken; the dynamic result is modelled by `PyVal`.
* Operations whose Python counterpart would raise `IndexError` on an empty
  collection (`meta`, and the `maps[0]`-relative checks) are modelled totally
  with `List.getD`; theorems about them carry a nonemptiness hypothesis so
  that only the faithfully modelled domain is used.
-/

/-- A 2-D numeric array: `rows × cols`, entries given by a total valuation. -/
structure Arr2 where
  rows : Nat
  cols : Nat
  val : Nat → Nat → ℚ

instance : Inhabited Arr2 := ⟨⟨0, 0, fun _ _ => 0⟩⟩

/-- `numpy.ndarray.shape` of a 2-D array. -/
def Arr2.shape (a : Arr2) : Nat × Nat := (a.rows, a.cols)

/-- Elementwise subtraction `a - b` (numpy broadcasting of two same-shaped
arrays; the result carries the left operand's dimensions). -/
def Arr2.sub (a b : Arr2) : Arr2 := ⟨a.rows, a.cols, fun i j => a.val i j - b.val i j⟩

/-- Elementwise division `a / b` of two same-shaped arrays. -/
def Arr2.div (a b : Arr2) : Arr2 := ⟨a.rows, a.cols, fun i j => a.val i j / b.val i j⟩

/-- Division of an array by a scalar (numpy `a / 1.0`). -/
def Arr2.divScalar (a : Arr2) (q : ℚ) : Arr2 := ⟨a.rows, a.cols, fun i j => a.val i j / q⟩

/-- A 3-D numeric array. -/
structure Arr3 where
  d1 : Nat
  d2 : Nat
  d3 : Nat
  val : Nat → Nat → Nat → ℚ

/-- `numpy.swapaxes(a, 0, 1)` for a 3-D array. -/
def Arr3.swapaxes01 (a : Arr3) : Arr3 := ⟨a.d2, a.d1, a.d3, fun i j k => a.val j i k⟩

/-- `numpy.swapaxes(a, 1, 2)` for a 3-D array. -/
def Arr3.swapaxes12 (a : Arr3) : Arr3 := ⟨a.d1, a.d3, a.d2, fun i j k => a.val i k j⟩

/-- `numpy.asarray` applied to a list of same-shaped 2-D arrays: a 3-D array
of shape `(n, rows, cols)` stacking the inputs along axis 0. -/
def npStack (xs : List Arr2) : Arr3 :=
  ⟨xs.length, (xs.getD 0 default).rows, (xs.getD 0 default).cols,
    fun t r c => (xs.getD t default).val r c⟩

/-- A map header: capture date, pixel scale, and the remaining key/value
entries (scalar-valued, as the claims need). In sunpy the date and scale are
themselves stored in the header; they are kept as distinguished fields here
because the cube accesses them through the `Frame` interface. -/
structure Meta where
  date : Int
  scale : ℚ × ℚ
  kv : List (String × Int)
deriving DecidableEq

instance : Inhabited Meta := ⟨⟨0, (0, 0), []⟩⟩

/-- Python `meta[key]` dictionary access. The claims only use keys present in
every header, so absence is given the harmless default `0`. -/
def Meta.lookup (m : Meta) (k : String) : Int :=
  ((m.kv.find? (fun p => p.1 == k)).getD ("", 0)).2

/-- The external single-map abstraction (`GenericMap`): a 2-D data array plus
a metadata header; `date` and `scale` are read from the header. -/
structure Frame where
  data : Arr2
  meta : Meta

instance : Inhabited Frame := ⟨⟨default, default⟩⟩

/-- `m.scale` of a map (derived from its header, as in sunpy). -/
def Frame.scale (f : Frame) : ℚ × ℚ := f.meta.scale

/-- `m.date` of a map (derived from its header, as in sunpy). -/
def Frame.date (f : Frame) : Int := f.meta.date

/-- The boolean comparison used by `maps.sort(key=lambda m: m.date)`. -/
def Frame.dateLe (a b : Frame) : Bool := decide (a.date ≤ b.date)

/-- A raised Python exception. Every raise site in `mapcubed.py` is a
`ValueError` with a constant message string; the error value carries exactly
that message. -/
inductive Err where
  | valueError (msg : String)
deriving DecidableEq

/-- A dynamically typed object handed to `MapCubed.__init__`: either a
genuine map or some other Python object (described by a tag). -/
inductive PyObj where
  | frame (f : Frame)
  | other (descr : String)

/-- The `isinstance(m, GenericMap)` test. -/
def PyObj.isFrame : PyObj → Bool
  | .frame _ => true
  | .other _ => false

/-- Extract the map from a dynamic object when it is one. -/
def PyObj.asFrame : PyObj → Option Frame
  | .frame f => some f
  | .other _ => none

/-- A dynamically typed Python value returned by `MapCubed.meta`: a scalar or
a list of scalars. -/
inductive PyVal where
  | int (n : Int)
  | list (xs : List Int)
deriving DecidableEq

/-- The cube: the stored map list `_maps` and the extracted header list
`_meta` (field `metas` here). -/
structure MapCubed where
  maps : List Frame
  metas : List Meta

/-- The validation tail of `MapCubed.__init__` after the sort: check that all
maps share the first map's data shape, then that they share its scale, and
extract the headers. `np.all` over an empty comprehension is `True`, so an
empty list passes both checks, exactly as in the source. -/
def MapCubed.validate (maps : List Frame) : Except Err MapCubed :=
  if maps.all (fun m => decide (m.data.shape = (maps.getD 0 default).data.shape)) then
    if maps.all (fun m => decide (m.scale = (maps.getD 0 default).scale)) then
      .ok { maps := maps, metas := maps.map Frame.meta }
    else .error (.valueError "All Map data must have the same scale")
  else .error (.valueError "All Map data must have the same dimensions")

/-- The tail of `MapCubed.__init__` once every argument is known to be a map:
sort stably by date (the sort always runs; the `orderby` argument is popped by
the source and then never read), then validate and extract the headers. -/
def MapCubed.ofMaps (args : List Frame) (orderby : Option String) : Except Err MapCubed :=
  MapCubed.validate (args.mergeSort Frame.dateLe)

/-- `MapCubed.__init__`: first the `isinstance` check over the expanded
argument list, then the sort/validation tail (`MapCubed.ofMaps`). -/
def MapCubed.construct (args : List PyObj) (orderby : Option String) : Except Err MapCubed :=
  if args.all PyObj.isFrame then
    MapCubed.ofMaps (args.filterMap PyObj.asFrame) orderby
  else .error (.valueError "MapCubed expects pre-constructed map objects.")

/-- `len(cube)`. -/
def MapCubed.len (c : MapCubed) : Nat := c.maps.length

/-- `cube[i]` for a scalar index (returns a single map). -/
def MapCubed.getMap (c : MapCubed) (i : Nat) : Frame := c.maps.getD i default

/-- `cube[a:b]` for a slice index: `MapCubed(self._maps[key])`, i.e. the
sliced map list is fed through the constructor again (default `orderby`). -/
def MapCubed.getSlice (c : MapCubed) (a b : Nat) : Except Err MapCubed :=
  MapCubed.ofMaps ((c.maps.drop a).take (b - a)) (some "date")

/-- `all_maps_same_shape()`. -/
def MapCubed.allMapsSameShape (c : MapCubed) : Bool :=
  c.maps.all (fun m => decide (m.data.shape = (c.maps.getD 0 default).data.shape))

/-- `meta(key)`: collect the per-header values; if they are all equal to the
first one (`np.all` of the comparison list), collapse to the one-element list
`[result[0]]`, otherwise return the full list. Both branches return a Python
list. -/
def MapCubed.meta (c : MapCubed) (key : String) : PyVal :=
  let result := c.metas.map (fun m => m.lookup key)
  if result.all (fun r => r == result.getD 0 0) then PyVal.list [result.getD 0 0]
  else PyVal.list result

/-- `as_array()`: when all maps share one shape, stack the data arrays with
`np.asarray` and reorder the axes with the two `np.swapaxes` calls of the
source, giving axis order (row, column, frame-index); otherwise raise. -/
def MapCubed.asArray (c : MapCubed) : Except Err Arr3 :=
  if c.allMapsSameShape then
    .ok (((npStack (c.maps.map Frame.data)).swapaxes01).swapaxes12)
  else .error (.valueError "Not all maps have the same shape.")

/-- `submap(range_a, range_b)`: apply the external Frame-level submap
transform (already specialized to the ranges, since the single-map abstraction
is an external collaborator) to a deep copy of every map and rebuild a cube
through the constructor. -/
def MapCubed.submap (c : MapCubed) (frameSubmap : Frame → Frame) : Except Err MapCubed :=
  MapCubed.ofMaps (c.maps.map frameSubmap) (some "date")

/-- `superpixel(dimensions, method)`: the external Frame-level superpixel
transform applied to every map, rebuilt through the constructor. -/
def MapCubed.superpixel (c : MapCubed) (frameSuperpixel : Frame → Frame) : Except Err MapCubed :=
  MapCubed.ofMaps (c.maps.map frameSuperpixel) (some "date")

/-- `resample(dimensions, method)`: the external Frame-level resample
transform applied to every map, rebuilt through the constructor. -/
def MapCubed.resample (c : MapCubed) (frameResample : Frame → Frame) : Except Err MapCubed :=
  MapCubed.ofMaps (c.maps.map frameResample) (some "date")

/-- The body of the `running_difference` loop at index `i`: the data is
`maps[i+offset].data - maps[i].data`; the header is the ahead map's for
`'ahead'`, the behind map's for `'behind'`, and any other choice raises. -/
def rdBody (c : MapCubed) (offset : Nat) (choice : String) (i : Nat) : Except Err Frame := do
  let new_data := Arr2.sub (c.maps.getD (i + offset) default).data
    (c.maps.getD i default).data
  let new_meta ←
    if choice = "ahead" then pure (c.maps.getD (i + offset) default).meta
    else if choice = "behind" then pure (c.maps.getD i default).meta
    else Except.error (Err.valueError
      "The value of the keyword \"use_offset_for_meta\" has not been recognized.")
  pure (Frame.mk new_data new_meta)

/-- `running_difference(offset, use_offset_for_meta)`: run the loop body for
each `i` in `range(0, len - offset)` and feed the produced list through the
constructor again. -/
def MapCubed.runningDifference (c : MapCubed) (offset : Nat) (choice : String) :
    Except Err MapCubed := do
  let new_mc ← (List.range (c.maps.length - offset)).mapM (rdBody c offset choice)
  MapCubed.ofMaps new_mc (some "date")

/-- The designator accepted by `base_difference`: an integer index into the
cube or a standalone map. -/
inductive BaseArg where
  | idx (i : Nat)
  | map (m : Frame)

/-- The resolution of the `base` argument of `base_difference` to a data
array: `self[base].data` for an index, `base.data` for a standalone map. -/
def MapCubed.baseData (c : MapCubed) (base : BaseArg) : Arr2 :=
  match base with
  | .idx i => (c.maps.getD i default).data
  | .map m => m.data

/-- The per-map body of the `base_difference` loop:
`Map((m.data - base_data) / relative, m.meta)` with `relative` the base array
when `fraction` and the scalar `1.0` otherwise. -/
def bdMap (base_data : Arr2) (fraction : Bool) (m : Frame) : Frame :=
  Frame.mk (if fraction then Arr2.div (Arr2.sub m.data base_data) base_data
            else Arr2.divScalar (Arr2.sub m.data base_data) 1) m.meta

/-- `base_difference(base, fraction)`: resolve the base data, check its shape
against map 0's, then build the per-map differences keeping each map's own
header, and rebuild a cube through the constructor. -/
def MapCubed.baseDifference (c : MapCubed) (base : BaseArg) (fraction : Bool) :
    Except Err MapCubed :=
  let base_data := c.baseData base
  if base_data.shape = (c.maps.getD 0 default).data.shape then
    MapCubed.ofMaps (c.maps.map (bdMap base_data fraction)) (some "date")
  else .error (.valueError "Base map does not have the same shape as the maps in the input mapcube.")

/-- The frame built by iteration `i` of the `running_difference` loop when the
metadata choice is one of the recognized options. -/
def rdFrame (c : MapCubed) (k : Nat) (choice : String) (i : Nat) : Frame :=
  Frame.mk (Arr2.sub (c.maps.getD (i + k) default).data (c.maps.getD i default).data)
    (if choice = "ahead" then (c.maps.getD (i + k) default).meta
     else (c.maps.getD i default).meta)

/-- The invariants `MapCubed.__init__` establishes on every cube it returns:
all maps share map 0's data shape, all share map 0's scale, the header list is
the extracted header of each map in order, and the maps are sorted by date. -/
def MapCubed.IsCube (c : MapCubed) : Prop :=
  (∀ f ∈ c.maps, f.data.shape = (c.maps.getD 0 default).data.shape) ∧
  (∀ f ∈ c.maps, f.scale = (c.maps.getD 0 default).scale) ∧
  c.metas = c.maps.map Frame.meta ∧
  c.maps.Pairwise (fun a b => a.date ≤ b.date)

instance (c : MapCubed) : Decidable c.IsCube := by
  unfold MapCubed.IsCube
  infer_instance

/-- The cube-level postcondition named by the spec for derived collections:
one common shape, one common scale, and an index-aligned recomputed header
list. -/
def MapCubed.HomogeneousAligned (c : MapCubed) : Prop :=
  (∀ f ∈ c.maps, ∀ g ∈ c.maps, f.data.shape = g.data.shape ∧ f.scale = g.scale) ∧
  c.metas = c.maps.map Frame.meta

/-! ### Concrete frames and cubes used as evaluation inputs -/

/-- A 1×1 frame with constant data entry `q`, date `d`, scale `(1, 1)`, and
header keys `"k"` and `"t"`. -/
def mkTestFrame (d : Int) (q : ℚ) (kv tv : Int) : Frame :=
  ⟨⟨1, 1, fun _ _ => q⟩, ⟨d, (1, 1), [("k", kv), ("t", tv)]⟩⟩

def wFrame0 : Frame := mkTestFrame 0 3 5 10

def wFrame1 : Frame := mkTestFrame 1 7 5 20

def wFrame2 : Frame := mkTestFrame 2 12 5 20

/-- A three-frame cube (dates 0, 1, 2) satisfying the construction
invariants. -/
def wCube : MapCubed := ⟨[wFrame0, wFrame1, wFrame2], [wFrame0.meta, wFrame1.meta, wFrame2.meta]⟩

/-- A two-frame cube made of the first two test frames. -/
def wPair : MapCubed := ⟨[wFrame0, wFrame1], [wFrame0.meta, wFrame1.meta]⟩

/-- A 2×2 frame dated 2, shape-incompatible with the 1×1 test frames. -/
def bigFrameA : Frame := ⟨⟨2, 2, fun _ _ => 0⟩, ⟨2, (1, 1), []⟩⟩

/-- A 2×2 frame dated 1, shape-incompatible with the 1×1 test frames. -/
def bigFrameB : Frame := ⟨⟨2, 2, fun _ _ => 0⟩, ⟨1, (1, 1), []⟩⟩

/-- A 1×1 frame dated 3 whose pixel scale `(2, 2)` differs from the test
frames' `(1, 1)`. -/
def scaleFrame : Frame := ⟨⟨1, 1, fun _ _ => 0⟩, ⟨3, (2, 2), []⟩⟩

/-- A 1×1 frame dated 5 (later than `earlyFrame`). -/
def lateFrame : Frame := mkTestFrame 5 1 0 0

/-- A 1×1 frame dated 3. -/
def earlyFrame : Frame := mkTestFrame 3 2 0 0

/-- The base-difference of `wCube` against its frame 0, non-fractional. -/
def wCubeBD : MapCubed :=
  ⟨wCube.maps.map (bdMap (wCube.baseData (BaseArg.idx 0)) false),
   (wCube.maps.map (bdMap (wCube.baseData (BaseArg.idx 0)) false)).map Frame.meta⟩

/-- The two-frame cube produced by slicing `wCube` with `[0:2]`. -/
def wSlice : MapCubed := ⟨[wFrame0, wFrame1], [wFrame0.meta, wFrame1.meta]⟩

/-! ### Helper lemmas about the embedding -/

theorem frame_dateLe_trans (a b c : Frame) (hab : Frame.dateLe a b = true)
    (hbc : Frame.dateLe b c = true) : Frame.dateLe a c = true := by
  simp only [Frame.dateLe, decide_eq_true_eq] at hab hbc ⊢
  omega

theorem frame_dateLe_total (a b : Frame) : (Frame.dateLe a b || Frame.dateLe b a) = true := by
  simp only [Frame.dateLe, Bool.or_eq_true, decide_eq_true_eq]
  omega

theorem getD_mem_of_lt {α : Type} [Inhabited α] {l : List α} {i : Nat} (h : i < l.length) :
    l.getD i default ∈ l := by
  rw [List.getD_eq_getElem l default h]
  exact List.getElem_mem h

theorem pairwise_date_getD {l : List Frame} (hp : l.Pairwise (fun a b => a.date ≤ b.date))
    {i j : Nat} (hij : i ≤ j) (hj : j < l.length) :
    (l.getD i default).date ≤ (l.getD j default).date := by
  rcases Nat.eq_or_lt_of_le hij with rfl | hlt
  · exact le_refl _
  · have hi : i < l.length := Nat.lt_trans hlt hj
    rw [List.getD_eq_getElem l default hi, List.getD_eq_getElem l default hj]
    exact List.pairwise_iff_getElem.mp hp i j hi hj hlt

theorem getD_map_range {α : Type} [Inhabited α] {f : Nat → α} {m i : Nat} (h : i < m) :
    ((List.range m).map f).getD i default = f i := by
  rw [List.getD_eq_getElem _ _ (by simpa using h)]
  simp

theorem validate_ok_of_homogeneous (xs : List Frame)
    (hshape : ∀ f ∈ xs, f.data.shape = (xs.getD 0 default).data.shape)
    (hscale : ∀ f ∈ xs, f.scale = (xs.getD 0 default).scale) :
    MapCubed.validate xs = .ok ⟨xs, xs.map Frame.meta⟩ := by
  have h1 : (xs.all fun m => decide (m.data.shape = (xs.getD 0 default).data.shape)) = true := by
    simp only [List.all_eq_true, decide_eq_true_eq]
    exact hshape
  have h2 : (xs.all fun m => decide (m.scale = (xs.getD 0 default).scale)) = true := by
    simp only [List.all_eq_true, decide_eq_true_eq]
    exact hscale
  unfold MapCubed.validate
  rw [h1, h2]
  rfl

theorem ofMaps_ok_of_sorted (xs : List Frame) (ob : Option String)
    (hsort : xs.Pairwise (fun a b => a.date ≤ b.date))
    (hshape : ∀ f ∈ xs, f.data.shape = (xs.getD 0 default).data.shape)
    (hscale : ∀ f ∈ xs, f.scale = (xs.getD 0 default).scale) :
    MapCubed.ofMaps xs ob = .ok ⟨xs, xs.map Frame.meta⟩ := by
  have hms : xs.mergeSort Frame.dateLe = xs :=
    List.mergeSort_of_sorted (hsort.imp (fun h => by simpa [Frame.dateLe] using h))
  unfold MapCubed.ofMaps
  rw [hms]
  exact validate_ok_of_homogeneous xs hshape hscale

theorem ofMaps_isCube {args : List Frame} {ob : Option String} {c : MapCubed}
    (h : MapCubed.ofMaps args ob = .ok c) : c.IsCube := by
  unfold MapCubed.ofMaps MapCubed.validate at h
  split at h
  · split at h
    · next h1 h2 =>
      cases h
      refine ⟨?_, ?_, rfl, ?_⟩
      · intro f hf
        exact of_decide_eq_true (List.all_eq_true.mp h1 f hf)
      · intro f hf
        exact of_decide_eq_true (List.all_eq_true.mp h2 f hf)
      · exact (List.sorted_mergeSort frame_dateLe_trans frame_dateLe_total args).imp
          (fun hd => by simpa [Frame.dateLe] using hd)
    · exact Except.noConfusion h
  · exact Except.noConfusion h

theorem MapCubed.IsCube.homAligned {c : MapCubed} (h : c.IsCube) : c.HomogeneousAligned := by
  refine ⟨?_, h.2.2.1⟩
  intro f hf g hg
  exact ⟨(h.1 f hf).trans (h.1 g hg).symm, (h.2.1 f hf).trans (h.2.1 g hg).symm⟩

theorem exceptMapM_ok {α β : Type} (f : α → Except Err β) (g : α → β) :
    ∀ (l : List α), (∀ a ∈ l, f a = .ok (g a)) → l.mapM f = .ok (l.map g) := by
  intro l
  induction l with
  | nil => intro _; rfl
  | cons a t ih =>
    intro h
    rw [List.mapM_cons, h a (List.mem_cons_self a t),
      ih (fun x hx => h x (List.mem_cons_of_mem a hx))]
    rfl

theorem exceptMapM_error_cons {α β : Type} (f : α → Except Err β) (e : Err) (a : α)
    (t : List α) (h : f a = .error e) :
    (a :: t).mapM f = (.error e : Except Err (List β)) := by
  rw [List.mapM_cons, h]
  rfl

theorem Arr2.sub_shape (a b : Arr2) : (Arr2.sub a b).shape = a.shape := rfl

theorem Arr2.div_shape (a b : Arr2) : (Arr2.div a b).shape = a.shape := rfl

theorem Arr2.divScalar_shape (a : Arr2) (q : ℚ) : (Arr2.divScalar a q).shape = a.shape := rfl

theorem rdBody_ahead (c : MapCubed) (k i : Nat) :
    rdBody c k "ahead" i = .ok (rdFrame c k "ahead" i) := by
  simp only [rdBody, rdFrame, if_pos]
  rfl

theorem rdBody_behind (c : MapCubed) (k i : Nat) :
    rdBody c k "behind" i = .ok (rdFrame c k "behind" i) := by
  simp [rdBody, rdFrame]
  rfl

theorem rdBody_bad (c : MapCubed) (k i : Nat) (choice : String)
    (h1 : choice ≠ "ahead") (h2 : choice ≠ "behind") :
    rdBody c k choice i = .error (Err.valueError
      "The value of the keyword \"use_offset_for_meta\" has not been recognized.") := by
  simp [rdBody, h1, h2]

theorem runningDifference_eq_ofMaps (c : MapCubed) (k : Nat) (choice : String)
    (h : choice = "ahead" ∨ choice = "behind") :
    c.runningDifference k choice =
      MapCubed.ofMaps ((List.range (c.maps.length - k)).map (rdFrame c k choice))
        (some "date") := by
  have hfa : ∀ a ∈ List.range (c.maps.length - k),
      rdBody c k choice a = .ok (rdFrame c k choice a) := by
    intro a _
    rcases h with rfl | rfl
    · exact rdBody_ahead c k a
    · exact rdBody_behind c k a
  unfold MapCubed.runningDifference
  rw [exceptMapM_ok _ _ _ hfa]
  rfl

theorem rdFrame_date (c : MapCubed) (k : Nat) (choice : String) (i : Nat) :
    (rdFrame c k choice i).date =
      (if choice = "ahead" then (c.maps.getD (i + k) default).date
       else (c.maps.getD i default).date) := by
  by_cases hch : choice = "ahead" <;> simp [rdFrame, Frame.date, hch]

theorem rdFrame_scale (c : MapCubed) (k : Nat) (choice : String) (i : Nat) :
    (rdFrame c k choice i).scale =
      (if choice = "ahead" then (c.maps.getD (i + k) default).scale
       else (c.maps.getD i default).scale) := by
  by_cases hch : choice = "ahead" <;> simp [rdFrame, Frame.scale, hch]

theorem rdList_sorted (c : MapCubed) (k : Nat) (choice : String) (hc : c.IsCube) :
    ((List.range (c.maps.length - k)).map (rdFrame c k choice)).Pairwise
      (fun a b => a.date ≤ b.date) := by
  rw [List.pairwise_iff_getElem]
  intro i j hi hj hij
  simp only [List.length_map, List.length_range] at hi hj
  simp only [List.getElem_map, List.getElem_range]
  have hp := hc.2.2.2
  by_cases hch : choice = "ahead"
  · rw [rdFrame_date, rdFrame_date, if_pos hch, if_pos hch]
    exact pairwise_date_getD hp (by omega) (by omega)
  · rw [rdFrame_date, rdFrame_date, if_neg hch, if_neg hch]
    exact pairwise_date_getD hp (by omega) (by omega)

theorem rdList_shape (c : MapCubed) (k : Nat) (choice : String) (hc : c.IsCube)
    (hk : k < c.maps.length) :
    ∀ f ∈ (List.range (c.maps.length - k)).map (rdFrame c k choice),
      f.data.shape =
        ((((List.range (c.maps.length - k)).map (rdFrame c k choice)).getD 0
          default)).data.shape := by
  intro f hf
  rcases List.mem_map.mp hf with ⟨i, hi, rfl⟩
  rw [List.mem_range] at hi
  have h0 : 0 < c.maps.length - k := by omega
  rw [getD_map_range h0]
  have e1 : (rdFrame c k choice i).data.shape = (c.maps.getD (i + k) default).data.shape :=
    Arr2.sub_shape _ _
  have e2 : (rdFrame c k choice 0).data.shape = (c.maps.getD (0 + k) default).data.shape :=
    Arr2.sub_shape _ _
  have m1 : c.maps.getD (i + k) default ∈ c.maps := getD_mem_of_lt (by omega)
  have m0 : c.maps.getD (0 + k) default ∈ c.maps := getD_mem_of_lt (by omega)
  rw [e1, e2, hc.1 _ m1, hc.1 _ m0]

theorem rdList_scale (c : MapCubed) (k : Nat) (choice : String) (hc : c.IsCube)
    (hk : k < c.maps.length) :
    ∀ f ∈ (List.range (c.maps.length - k)).map (rdFrame c k choice),
      f.scale =
        ((((List.range (c.maps.length - k)).map (rdFrame c k choice)).getD 0
          default)).scale := by
  intro f hf
  rcases List.mem_map.mp hf with ⟨i, hi, rfl⟩
  rw [List.mem_range] at hi
  have h0 : 0 < c.maps.length - k := by omega
  rw [getD_map_range h0, rdFrame_scale, rdFrame_scale]
  by_cases hch : choice = "ahead"
  · rw [if_pos hch, if_pos hch,
      hc.2.1 _ (getD_mem_of_lt (show i + k < c.maps.length by omega)),
      hc.2.1 _ (getD_mem_of_lt (show 0 + k < c.maps.length by omega))]
  · rw [if_neg hch, if_neg hch,
      hc.2.1 _ (getD_mem_of_lt (show i < c.maps.length by omega)),
      hc.2.1 _ (getD_mem_of_lt (show 0 < c.maps.length by omega))]

theorem runningDifference_ok (c : MapCubed) (k : Nat) (choice : String) (hc : c.IsCube)
    (hk : k < c.maps.length) (h : choice = "ahead" ∨ choice = "behind") :
    c.runningDifference k choice =
      .ok ⟨(List.range (c.maps.length - k)).map (rdFrame c k choice),
           ((List.range (c.maps.length - k)).map (rdFrame c k choice)).map Frame.meta⟩ := by
  rw [runningDifference_eq_ofMaps c k choice h]
  exact ofMaps_ok_of_sorted _ _ (rdList_sorted c k choice hc)
    (rdList_shape c k choice hc hk) (rdList_scale c k choice hc hk)

theorem runningDifference_error (c : MapCubed) (k : Nat) (choice : String)
    (hk : k < c.maps.length) (h1 : choice ≠ "ahead") (h2 : choice ≠ "behind") :
    c.runningDifference k choice = .error (Err.valueError
      "The value of the keyword \"use_offset_for_meta\" has not been recognized.") := by
  unfold MapCubed.runningDifference
  obtain ⟨m, hm⟩ : ∃ m, c.maps.length - k = m + 1 := ⟨c.maps.length - k - 1, by omega⟩
  rw [hm, List.range_succ_eq_map,
    exceptMapM_error_cons _ _ _ _ (rdBody_bad c k 0 choice h1 h2)]
  rfl

theorem bdMap_shape (b : Arr2) (fr : Bool) (m : Frame) :
    (bdMap b fr m).data.shape = m.data.shape := by
  cases fr <;> rfl

theorem bdMap_scale (b : Arr2) (fr : Bool) (m : Frame) : (bdMap b fr m).scale = m.scale := by
  cases fr <;> rfl

theorem bdMap_date (b : Arr2) (fr : Bool) (m : Frame) : (bdMap b fr m).date = m.date := by
  cases fr <;> rfl

theorem bdMap_meta (b : Arr2) (fr : Bool) (m : Frame) : (bdMap b fr m).meta = m.meta := by
  cases fr <;> rfl

theorem getD_map_of_lt {α β : Type} [Inhabited α] [Inhabited β] (g : α → β) {l : List α}
    {i : Nat} (h : i < l.length) : (l.map g).getD i default = g (l.getD i default) := by
  rw [List.getD_eq_getElem _ _ (by simpa using h), List.getElem_map,
    List.getD_eq_getElem _ _ h]

theorem baseDifference_ok (c : MapCubed) (base : BaseArg) (fr : Bool) (hc : c.IsCube)
    (hn : c.maps ≠ [])
    (hsh : (c.baseData base).shape = (c.maps.getD 0 default).data.shape) :
    c.baseDifference base fr =
      .ok ⟨c.maps.map (bdMap (c.baseData base) fr),
           (c.maps.map (bdMap (c.baseData base) fr)).map Frame.meta⟩ := by
  have h0 : 0 < c.maps.length := List.length_pos.mpr hn
  simp only [MapCubed.baseDifference]
  rw [if_pos hsh]
  apply ofMaps_ok_of_sorted
  · rw [List.pairwise_map]
    exact hc.2.2.2.imp (fun h => by rw [bdMap_date, bdMap_date]; exact h)
  · intro f hf
    rcases List.mem_map.mp hf with ⟨m, hm, rfl⟩
    rw [getD_map_of_lt _ h0, bdMap_shape, bdMap_shape, hc.1 _ hm]
  · intro f hf
    rcases List.mem_map.mp hf with ⟨m, hm, rfl⟩
    rw [getD_map_of_lt _ h0, bdMap_scale, bdMap_scale, hc.2.1 _ hm]

theorem baseDifference_error (c : MapCubed) (base : BaseArg) (fr : Bool)
    (hsh : (c.baseData base).shape ≠ (c.maps.getD 0 default).data.shape) :
    c.baseDifference base fr = .error (.valueError
      "Base map does not have the same shape as the maps in the input mapcube.") := by
  simp only [MapCubed.baseDifference]
  rw [if_neg hsh]

theorem runningDifference_isCube {c d : MapCubed} {k : Nat} {ch : String}
    (h : c.runningDifference k ch = .ok d) : d.IsCube := by
  unfold MapCubed.runningDifference at h
  cases hm : (List.range (c.maps.length - k)).mapM (rdBody c k ch) with
  | error e => rw [hm] at h; exact Except.noConfusion h
  | ok xs => rw [hm] at h; exact @ofMaps_isCube xs (some "date") d h

theorem baseDifference_isCube {c d : MapCubed} {base : BaseArg} {fr : Bool}
    (h : c.baseDifference base fr = .ok d) : d.IsCube := by
  simp only [MapCubed.baseDifference] at h
  split at h
  · exact ofMaps_isCube h
  · exact Except.noConfusion h

/-! ### Claims -/

/-- C1: for every constructed cube `c` of length `n` and every offset
`0 < k < n`, `running_difference(offset=k)` with a recognized metadata choice
returns a new cube of length `n - k` whose element `i` has data equal to
`c[i+k].data - c[i].data` elementwise, with element `i`'s metadata taken from
frame `i+k` when the choice is `'ahead'` and from frame `i` when it is
`'behind'`. -/
theorem C1_running_difference (c : MapCubed) (k : Nat) (choice : String)
    (hc : c.IsCube) (hk0 : 0 < k) (hk : k < c.maps.length)
    (hch : choice = "ahead" ∨ choice = "behind") :
    ∃ d, c.runningDifference k choice = .ok d ∧
      d.maps.length = c.maps.length - k ∧
      ∀ i, i < c.maps.length - k →
        (d.maps.getD i default).data.rows = (c.maps.getD (i + k) default).data.rows ∧
        (d.maps.getD i default).data.cols = (c.maps.getD (i + k) default).data.cols ∧
        (∀ r j, (d.maps.getD i default).data.val r j =
          (c.maps.getD (i + k) default).data.val r j -
            (c.maps.getD i default).data.val r j) ∧
        (d.maps.getD i default).meta =
          (if choice = "ahead" then (c.maps.getD (i + k) default).meta
           else (c.maps.getD i default).meta) := by
  refine ⟨_, runningDifference_ok c k choice hc hk hch, by simp, ?_⟩
  intro i hi
  dsimp only
  rw [getD_map_range hi]
  exact ⟨rfl, rfl, fun r j => rfl, rfl⟩

/-- Witness for C1 at `wCube` with offset 1 and choice `'ahead'`. -/
theorem C1_running_difference_witness :
    ∃ d, wCube.runningDifference 1 "ahead" = .ok d ∧ d.maps.length = 2 := by
  obtain ⟨d, h1, h2, _⟩ :=
    C1_running_difference wCube 1 "ahead" (by decide) (by decide) (by decide) (Or.inl rfl)
  exact ⟨d, h1, by rw [h2]; rfl⟩

/-- C4 counterexample: on a two-frame cube (more frames than the offset 1),
the enumerated option `'mean'` — the source's own default — is not accepted:
`running_difference(metadata_choice='mean')` raises the ValueError, refuting
the claim that `'mean'` is accepted without error. -/
theorem C4_counterexample :
    wPair.runningDifference 1 "mean" =
      .error (Err.valueError
        "The value of the keyword \"use_offset_for_meta\" has not been recognized.") :=
  runningDifference_error wPair 1 "mean" (by decide) (by decide) (by decide)

/-- C4 (amended): for every cube with more frames than the offset,
`running_difference` fails with the ValueError exactly when the metadata
choice is neither `'ahead'` nor `'behind'` — which includes the enumerated
legacy default `'mean'` — while `'ahead'` and `'behind'` are accepted without
error. -/
theorem C4_metadata_choice (c : MapCubed) (k : Nat) (choice : String)
    (hc : c.IsCube) (hk : k < c.maps.length) :
    (¬(choice = "ahead" ∨ choice = "behind") →
      c.runningDifference k choice = .error (Err.valueError
        "The value of the keyword \"use_offset_for_meta\" has not been recognized.")) ∧
    ((choice = "ahead" ∨ choice = "behind") →
      ∃ d, c.runningDifference k choice = .ok d) := by
  constructor
  · intro h
    push_neg at h
    exact runningDifference_error c k choice hk h.1 h.2
  · intro h
    exact ⟨_, runningDifference_ok c k choice hc hk h⟩

/-- Witness for C4 at `wCube` with offset 1 and the unrecognized choice
`'bogus'`. -/
theorem C4_metadata_choice_witness :
    wCube.runningDifference 1 "bogus" = .error (Err.valueError
      "The value of the keyword \"use_offset_for_meta\" has not been recognized.") :=
  (C4_metadata_choice wCube 1 "bogus" (by decide) (by decide)).1 (by decide)

/-- C2 counterexample: two constructions whose (unique) offending frame sits
at different indices — index 2 in the first input, index 1 in the second —
raise the very same constant error value, so the raised error does not
identify an offending frame index. -/
theorem C2_counterexample :
    MapCubed.construct [.frame wFrame0, .frame wFrame1, .frame bigFrameA] (some "date") =
      .error (Err.valueError "All Map data must have the same dimensions") ∧
    MapCubed.construct [.frame wFrame0, .frame bigFrameB, .frame wFrame1] (some "date") =
      .error (Err.valueError "All Map data must have the same dimensions") := by
  constructor
  · unfold MapCubed.construct MapCubed.ofMaps
    rw [if_pos (by decide),
      show ([PyObj.frame wFrame0, PyObj.frame wFrame1, PyObj.frame bigFrameA].filterMap
        PyObj.asFrame) = [wFrame0, wFrame1, bigFrameA] from rfl,
      List.mergeSort_of_sorted (by decide)]
    rfl
  · unfold MapCubed.construct MapCubed.ofMaps
    rw [if_pos (by decide),
      show ([PyObj.frame wFrame0, PyObj.frame bigFrameB, PyObj.frame wFrame1].filterMap
        PyObj.asFrame) = [wFrame0, bigFrameB, wFrame1] from rfl,
      List.mergeSort_of_sorted (by decide)]
    rfl

/-- C2 (amended): construction from maps that do not all share one 2-D shape
fails eagerly at construction time with the constant dimension ValueError, and
shape-homogeneous maps that do not all share one pixel scale fail with the
constant scale ValueError; neither error names an offending frame index. -/
theorem C2_mismatch_errors (args : List PyObj) (ob : Option String)
    (hfr : ∀ a ∈ args, a.isFrame = true) :
    ((∃ f ∈ args.filterMap PyObj.asFrame, ∃ g ∈ args.filterMap PyObj.asFrame,
        f.data.shape ≠ g.data.shape) →
      MapCubed.construct args ob =
        .error (Err.valueError "All Map data must have the same dimensions")) ∧
    ((∀ f ∈ args.filterMap PyObj.asFrame, ∀ g ∈ args.filterMap PyObj.asFrame,
        f.data.shape = g.data.shape) →
      (∃ f ∈ args.filterMap PyObj.asFrame, ∃ g ∈ args.filterMap PyObj.asFrame,
        f.scale ≠ g.scale) →
      MapCubed.construct args ob =
        .error (Err.valueError "All Map data must have the same scale")) := by
  have hcon : MapCubed.construct args ob =
      MapCubed.validate ((args.filterMap PyObj.asFrame).mergeSort Frame.dateLe) := by
    unfold MapCubed.construct MapCubed.ofMaps
    rw [if_pos (List.all_eq_true.mpr hfr)]
  have hmem : ∀ f : Frame, f ∈ (args.filterMap PyObj.asFrame).mergeSort Frame.dateLe ↔
      f ∈ args.filterMap PyObj.asFrame :=
    fun f => (List.mergeSort_perm (args.filterMap PyObj.asFrame) Frame.dateLe).mem_iff
  constructor
  · rintro ⟨f, hf, g, hg, hne⟩
    rw [hcon]
    unfold MapCubed.validate
    rw [if_neg]
    intro hall
    rw [List.all_eq_true] at hall
    have h1 := of_decide_eq_true (hall f ((hmem f).mpr hf))
    have h2 := of_decide_eq_true (hall g ((hmem g).mpr hg))
    exact hne (h1.trans h2.symm)
  · rintro hsh ⟨f, hf, g, hg, hne⟩
    rw [hcon]
    unfold MapCubed.validate
    have hms0 : ((args.filterMap PyObj.asFrame).mergeSort Frame.dateLe).getD 0 default ∈
        (args.filterMap PyObj.asFrame).mergeSort Frame.dateLe := by
      apply getD_mem_of_lt
      rw [List.length_mergeSort]
      rcases List.length_pos.mpr (List.ne_nil_of_mem hf) with h
      exact h
    rw [if_pos, if_neg]
    · intro hall
      rw [List.all_eq_true] at hall
      have h1 := of_decide_eq_true (hall f ((hmem f).mpr hf))
      have h2 := of_decide_eq_true (hall g ((hmem g).mpr hg))
      exact hne (h1.trans h2.symm)
    · rw [List.all_eq_true]
      intro m hm
      exact decide_eq_true (hsh m ((hmem m).mp hm) _ ((hmem _).mp hms0))

/-- Witness for C2: a shape-mismatched pair and a scale-mismatched pair. -/
theorem C2_mismatch_errors_witness :
    MapCubed.construct [.frame wFrame0, .frame bigFrameA] none =
      .error (Err.valueError "All Map data must have the same dimensions") ∧
    MapCubed.construct [.frame wFrame0, .frame scaleFrame] none =
      .error (Err.valueError "All Map data must have the same scale") :=
  ⟨(C2_mismatch_errors [.frame wFrame0, .frame bigFrameA] none (by decide)).1 (by decide),
   (C2_mismatch_errors [.frame wFrame0, .frame scaleFrame] none (by decide)).2
     (by decide) (by decide)⟩

/-- C3 counterexample: constructing from the empty sequence raises nothing —
it returns a collection with zero frames, refuting the claims that the empty
input fails with a ConstructionError and that no zero-frame collection is
ever produced. -/
theorem C3_counterexample :
    MapCubed.construct [] (some "date") = .ok ⟨[], []⟩ := by
  unfold MapCubed.construct MapCubed.ofMaps
  rw [if_pos (by decide),
    show (([] : List PyObj).filterMap PyObj.asFrame) = [] from rfl, List.mergeSort_nil]
  rfl

/-- C3 (amended): construction fails with the constant ValueError when any
supplied element is not a map, but the empty input sequence is accepted and
produces a collection with zero frames. -/
theorem C3_construction (args : List PyObj) (ob : Option String) :
    ((∃ a ∈ args, a.isFrame = false) →
      MapCubed.construct args ob =
        .error (Err.valueError "MapCubed expects pre-constructed map objects.")) ∧
    (args = [] → ∃ c, MapCubed.construct args ob = .ok c ∧ c.maps.length = 0) := by
  constructor
  · rintro ⟨a, ha, hfa⟩
    unfold MapCubed.construct
    rw [if_neg]
    intro hall
    rw [List.all_eq_true] at hall
    rw [hall a ha] at hfa
    exact Bool.noConfusion hfa
  · rintro rfl
    refine ⟨⟨[], []⟩, ?_, rfl⟩
    unfold MapCubed.construct MapCubed.ofMaps
    rw [if_pos (by decide),
      show (([] : List PyObj).filterMap PyObj.asFrame) = [] from rfl, List.mergeSort_nil]
    rfl

/-- Witness for C3: a non-map element raises; the empty input succeeds. -/
theorem C3_construction_witness :
    MapCubed.construct [.other "a string, not a map"] none =
      .error (Err.valueError "MapCubed expects pre-constructed map objects.") ∧
    ∃ c, MapCubed.construct ([] : List PyObj) none = .ok c ∧ c.maps.length = 0 :=
  ⟨(C3_construction [.other "a string, not a map"] none).1 (by decide),
   (C3_construction [] none).2 rfl⟩

/-- C7: the constructor's sort is not caller-selectable. Its docstring offers
`sortby` in `{"date", None}`, but the code pops `orderby` and never reads it:
even with `None` — documented as selecting no date sort — two frames supplied
in reverse date order come back reordered by date (dates `[3, 5]` out, `[5,
3]` in), so the chosen key has no effect on the stored order. -/
theorem C7_sort_key_ignored :
    MapCubed.construct [.frame lateFrame, .frame earlyFrame] none =
      .ok ⟨[earlyFrame, lateFrame], [earlyFrame.meta, lateFrame.meta]⟩ ∧
    lateFrame.date = 5 ∧ earlyFrame.date = 3 := by
  refine ⟨?_, rfl, rfl⟩
  unfold MapCubed.construct MapCubed.ofMaps
  rw [if_pos (by decide),
    show ([PyObj.frame lateFrame, PyObj.frame earlyFrame].filterMap PyObj.asFrame) =
      [lateFrame, earlyFrame] from rfl]
  have hms : [lateFrame, earlyFrame].mergeSort Frame.dateLe = [earlyFrame, lateFrame] := by
    simp [List.mergeSort, Frame.dateLe, Frame.date, lateFrame, earlyFrame, mkTestFrame]
  rw [hms]
  rfl

/-- C8 counterexample: on `wCube` every frame maps `"k"` to 5, yet
`meta("k")` returns the one-element Python list `[5]` — a sequence — and not
a bare scalar value, refuting the "single collapsed value (not a sequence)"
part of the claim. -/
theorem C8_counterexample :
    wCube.metas.map (fun m => m.lookup "k") = [5, 5, 5] ∧
    wCube.meta "k" = PyVal.list [5] ∧
    ¬ ∃ v : Int, wCube.meta "k" = PyVal.int v := by
  refine ⟨by decide, by decide, ?_⟩
  rintro ⟨v, h⟩
  rw [show wCube.meta "k" = PyVal.list [5] from by decide] at h
  exact PyVal.noConfusion h

/-- C8 (amended): for a nonempty cube and any key, `meta(key)` returns the
one-element list holding the common value when the per-frame values are all
equal, and the full index-aligned per-frame value list otherwise; both results
are lists. -/
theorem C8_meta_collapse (c : MapCubed) (key : String) (hn : c.metas ≠ []) :
    ((∀ v ∈ c.metas.map (fun m => m.lookup key),
        v = (c.metas.map (fun m => m.lookup key)).getD 0 0) →
      c.meta key = PyVal.list [(c.metas.map (fun m => m.lookup key)).getD 0 0]) ∧
    ((∃ v ∈ c.metas.map (fun m => m.lookup key),
        v ≠ (c.metas.map (fun m => m.lookup key)).getD 0 0) →
      c.meta key = PyVal.list (c.metas.map (fun m => m.lookup key))) := by
  constructor
  · intro h
    have hcond : ((c.metas.map (fun m => m.lookup key)).all
        (fun r => r == (c.metas.map (fun m => m.lookup key)).getD 0 0)) = true := by
      rw [List.all_eq_true]
      intro r hr
      exact beq_iff_eq.mpr (h r hr)
    simp only [MapCubed.meta]
    rw [hcond]
    rfl
  · rintro ⟨v, hv, hne⟩
    have hcond : ((c.metas.map (fun m => m.lookup key)).all
        (fun r => r == (c.metas.map (fun m => m.lookup key)).getD 0 0)) = false := by
      rw [List.all_eq_false]
      exact ⟨v, hv, fun hb => hne (beq_iff_eq.mp hb)⟩
    simp only [MapCubed.meta]
    rw [hcond]
    rfl

/-- Witness for C8: key `"k"` (identical values) collapses; key `"t"`
(differing values) yields the full per-frame sequence. -/
theorem C8_meta_collapse_witness :
    wCube.meta "k" = PyVal.list [(wCube.metas.map (fun m => m.lookup "k")).getD 0 0] ∧
    wCube.meta "t" = PyVal.list (wCube.metas.map (fun m => m.lookup "t")) :=
  ⟨(C8_meta_collapse wCube "k" (List.cons_ne_nil _ _)).1 (by decide),
   (C8_meta_collapse wCube "t" (List.cons_ne_nil _ _)).2 (by decide)⟩

theorem getD_map_data (l : List Frame) (t : Nat) :
    (l.map Frame.data).getD t default = (l.getD t default).data := by
  induction l generalizing t with
  | nil => cases t <;> rfl
  | cons a s ih =>
    cases t with
    | zero => rfl
    | succ n => exact ih n

/-- C5: for every nonempty cube whose frames all currently have shape `S`,
`as_array` returns a 3-D volume of shape `(S.1, S.2, n)` — axis order (row,
column, frame-index) — whose slice at frame-index `t` equals frame `t`'s
data; and when the frames are not uniformly shaped at call time it fails with
the shape ValueError instead of returning a volume. -/
theorem C5_as_array (c : MapCubed) (S : Nat × Nat) (hn : c.maps ≠ []) :
    ((∀ f ∈ c.maps, f.data.shape = S) →
      ∃ v, c.asArray = .ok v ∧ v.d1 = S.1 ∧ v.d2 = S.2 ∧ v.d3 = c.maps.length ∧
        ∀ t, t < c.maps.length → ∀ r j,
          v.val r j t = (c.maps.getD t default).data.val r j) ∧
    (c.allMapsSameShape = false →
      c.asArray = .error (Err.valueError "Not all maps have the same shape.")) := by
  constructor
  · intro hS
    have h0 : 0 < c.maps.length := List.length_pos.mpr hn
    have hall : c.allMapsSameShape = true := by
      unfold MapCubed.allMapsSameShape
      rw [List.all_eq_true]
      intro f hf
      exact decide_eq_true ((hS f hf).trans (hS _ (getD_mem_of_lt h0)).symm)
    have heq : c.asArray = .ok (((npStack (c.maps.map Frame.data)).swapaxes01).swapaxes12) := by
      unfold MapCubed.asArray
      rw [hall]
      rfl
    refine ⟨_, heq, ?_, ?_, by simp [npStack, Arr3.swapaxes01, Arr3.swapaxes12], ?_⟩
    · show ((c.maps.map Frame.data).getD 0 default).rows = S.1
      rw [getD_map_data]
      exact congrArg Prod.fst (hS _ (getD_mem_of_lt h0))
    · show ((c.maps.map Frame.data).getD 0 default).cols = S.2
      rw [getD_map_data]
      exact congrArg Prod.snd (hS _ (getD_mem_of_lt h0))
    · intro t ht r j
      show ((c.maps.map Frame.data).getD t default).val r j = _
      rw [getD_map_data]
  · intro h
    unfold MapCubed.asArray
    rw [h]
    rfl

/-- Witness for C5 at `wCube` (three 1×1 frames). -/
theorem C5_as_array_witness :
    ∃ v, wCube.asArray = .ok v ∧ v.d1 = 1 ∧ v.d2 = 1 ∧ v.d3 = wCube.maps.length ∧
      ∀ t, t < wCube.maps.length → ∀ r j,
        v.val r j t = (wCube.maps.getD t default).data.val r j :=
  (C5_as_array wCube (1, 1) (List.cons_ne_nil _ _)).1 (by decide)

/-- C6: for every constructed nonempty cube and base designator (an index
into the cube or a standalone map), when the base's shape agrees with the
cube's frame shape, `base_difference` returns a cube of the same length whose
element `i` keeps frame `i`'s metadata and has data
`(c[i].data - base.data) / base.data` elementwise wherever `base.data` is
nonzero when fractional, and `c[i].data - base.data` elementwise otherwise;
when the base's shape disagrees it fails with the shape ValueError. -/
theorem C6_base_difference (c : MapCubed) (base : BaseArg) (fr : Bool)
    (hc : c.IsCube) (hn : c.maps ≠ []) :
    ((c.baseData base).shape = (c.maps.getD 0 default).data.shape →
      ∃ d, c.baseDifference base fr = .ok d ∧ d.maps.length = c.maps.length ∧
        ∀ i, i < c.maps.length →
          (d.maps.getD i default).meta = (c.maps.getD i default).meta ∧
          (fr = true → ∀ r j, (c.baseData base).val r j ≠ 0 →
            (d.maps.getD i default).data.val r j =
              ((c.maps.getD i default).data.val r j - (c.baseData base).val r j) /
                (c.baseData base).val r j) ∧
          (fr = false → ∀ r j,
            (d.maps.getD i default).data.val r j =
              (c.maps.getD i default).data.val r j - (c.baseData base).val r j)) ∧
    ((c.baseData base).shape ≠ (c.maps.getD 0 default).data.shape →
      c.baseDifference base fr = .error (Err.valueError
        "Base map does not have the same shape as the maps in the input mapcube.")) := by
  constructor
  · intro hsh
    refine ⟨_, baseDifference_ok c base fr hc hn hsh, by simp, ?_⟩
    intro i hi
    dsimp only
    rw [getD_map_of_lt _ hi]
    refine ⟨bdMap_meta _ _ _, ?_, ?_⟩
    · rintro rfl r j _
      rfl
    · rintro rfl r j
      exact div_one _
  · intro hsh
    exact baseDifference_error c base fr hsh

/-- Witness for C6 at `wCube` with base index 0, fractional. -/
theorem C6_base_difference_witness :
    ∃ d, wCube.baseDifference (BaseArg.idx 0) true = .ok d ∧
      d.maps.length = wCube.maps.length ∧
      ∀ i, i < wCube.maps.length →
        (d.maps.getD i default).meta = (wCube.maps.getD i default).meta ∧
        (true = true → ∀ r j, (wCube.baseData (BaseArg.idx 0)).val r j ≠ 0 →
          (d.maps.getD i default).data.val r j =
            ((wCube.maps.getD i default).data.val r j -
              (wCube.baseData (BaseArg.idx 0)).val r j) /
              (wCube.baseData (BaseArg.idx 0)).val r j) ∧
        (true = false → ∀ r j,
          (d.maps.getD i default).data.val r j =
            (wCube.maps.getD i default).data.val r j -
              (wCube.baseData (BaseArg.idx 0)).val r j) :=
  (C6_base_difference wCube (BaseArg.idx 0) true (by decide)
    (List.cons_ne_nil _ _)).1 (by decide)

/-- C10: every element `i` of a successful `base_difference` result carries
the metadata of input frame `i` itself (`Map(new_data, m.meta)` in the loop),
whatever the base designator and the fractional flag — the base's header is
never substituted for any element's own. -/
theorem C10_base_difference_meta (c : MapCubed) (base : BaseArg) (fr : Bool) (d : MapCubed)
    (hc : c.IsCube) (hn : c.maps ≠ [])
    (h : c.baseDifference base fr = .ok d) :
    d.maps.map Frame.meta = c.maps.map Frame.meta ∧
    ∀ i, i < c.maps.length →
      (d.maps.getD i default).meta = (c.maps.getD i default).meta := by
  have hsh : (c.baseData base).shape = (c.maps.getD 0 default).data.shape := by
    by_contra hne
    rw [baseDifference_error c base fr hne] at h
    exact Except.noConfusion h
  have hok := baseDifference_ok c base fr hc hn hsh
  rw [h] at hok
  have hd := Except.ok.inj hok
  subst hd
  constructor
  · dsimp only
    rw [List.map_map]
    exact List.map_congr_left (fun m _ => bdMap_meta _ _ m)
  · intro i hi
    dsimp only
    rw [getD_map_of_lt _ hi]
    exact bdMap_meta _ _ _

/-- Witness for C10 at `wCube` with base index 0, non-fractional. -/
theorem C10_base_difference_meta_witness :
    wCubeBD.maps.map Frame.meta = wCube.maps.map Frame.meta :=
  (C10_base_difference_meta wCube (BaseArg.idx 0) false wCubeBD (by decide)
    (List.cons_ne_nil _ _)
    (baseDifference_ok wCube (BaseArg.idx 0) false (by decide)
      (List.cons_ne_nil _ _) (by decide))).1

/-- C9: every operation producing a new collection — submap, superpixel,
resample, running_difference, base_difference, and range slicing — rebuilds
its result through the constructor, so whenever one of them returns a
collection, all of its frames share one 2-D shape and one pixel scale and its
metadata sequence is the index-aligned header extraction recomputed from its
frame sequence. -/
theorem C9_derived_invariants (c d : MapCubed) (g : Frame → Frame) (a b k : Nat)
    (choice : String) (base : BaseArg) (fr : Bool) :
    (c.submap g = .ok d → d.HomogeneousAligned) ∧
    (c.superpixel g = .ok d → d.HomogeneousAligned) ∧
    (c.resample g = .ok d → d.HomogeneousAligned) ∧
    (c.runningDifference k choice = .ok d → d.HomogeneousAligned) ∧
    (c.baseDifference base fr = .ok d → d.HomogeneousAligned) ∧
    (c.getSlice a b = .ok d → d.HomogeneousAligned) := by
  refine ⟨?_, ?_, ?_, ?_, ?_, ?_⟩
  · intro h
    unfold MapCubed.submap at h
    exact (ofMaps_isCube h).homAligned
  · intro h
    unfold MapCubed.superpixel at h
    exact (ofMaps_isCube h).homAligned
  · intro h
    unfold MapCubed.resample at h
    exact (ofMaps_isCube h).homAligned
  · intro h
    exact (runningDifference_isCube h).homAligned
  · intro h
    exact (baseDifference_isCube h).homAligned
  · intro h
    unfold MapCubed.getSlice at h
    exact (ofMaps_isCube h).homAligned

/-- Witness for C9: slicing `wCube` with `[0:2]` yields `wSlice`, which is
homogeneous and index-aligned. -/
theorem C9_derived_invariants_witness : wSlice.HomogeneousAligned :=
  (C9_derived_invariants wCube wSlice id 0 2 1 "ahead" (BaseArg.idx 0) false).2.2.2.2.2
    (ofMaps_ok_of_sorted [wFrame0, wFrame1] (some "date") (by decide) (by decide) (by decide))
